import Mathlib

/-! Verification of the ecommerceETL pipeline (src/pipeline.py).

The repository's single source file `src/pipeline.py` defines one function,
`etl_pipeline(event, context)`, which downloads a CSV blob, builds four
grouped aggregate tables, a star schema (four dimension tables plus a
`sales_fact` table with a sequential surrogate key and four left-merged
aggregate columns), and loads the five resulting tables into BigQuery, with
a single catch-all `except` around the whole body.

We embed the program at two levels:

* a typed row-level model of the pandas transforms (groupby / merge /
  drop_duplicates / column selection), faithful to pandas semantics:
  `groupby` drops null keys and produces one row per distinct key;
  `drop_duplicates(subset=[k])` keeps the first-occurring row per key value
  (null keys compare equal); `merge(..., how='left')` produces one output
  row per matching right row, or one row with nulls when no right row
  matches, preserving left order. Numeric columns are modelled as `Rat`
  (Sales, Discount, Profit) and `Int` (Quantity); `pd.to_datetime` is
  modelled by an arbitrary function `parse : String → Date` applied to the
  raw `Order Date` text (its success path; parse failure is handled in the
  run-level model).

* a run-level model of the whole invocation: blob download, CSV decode,
  the column accesses of the transform stage, the sequential BigQuery load
  loop, and the catch-all boundary of `etl_pipeline`, over an explicit
  `World` of external outcomes. -/

/-- A calendar date: the value of a parsed `Order Date`
(the result of `pd.to_datetime` on the success path). -/
structure Date where
  year : Int
  month : Nat
  day : Nat
deriving DecidableEq, Repr, Inhabited

/-- One raw CSV row (line 19, `pd.read_csv`), restricted to the 19 columns
the pipeline reads (spec section 6 lists them as the required schema).
The three identifier columns joined or deduplicated on are nullable
(`Option String`, `none` = NaN); `orderDate` is the raw text prior to
line 56's `pd.to_datetime`. -/
structure Row where
  orderId : Option String
  productId : Option String
  customerId : Option String
  orderDate : String
  region : String
  sales : Rat
  quantity : Int
  discount : Rat
  profit : Rat
  customerName : String
  segment : String
  country : String
  city : String
  state : String
  postalCode : String
  productName : String
  category : String
  subCategory : String
  shipMode : String
deriving DecidableEq, Repr

/-- `drop_duplicates(subset=[key])` over rows already preceded by the keys in
`seen`: keeps each row whose key has not occurred before (pandas keeps the
first occurrence per key value; NaN key values compare equal, matching
`Option` equality here). -/
def dropDupBy {α κ : Type} [DecidableEq κ] (key : α → κ) : List κ → List α → List α
  | _, [] => []
  | seen, x :: xs =>
    if key x ∈ seen then dropDupBy key seen xs
    else x :: dropDupBy key (key x :: seen) xs

/-- The distinct non-null keys of a groupby, in first-occurrence order.
pandas `groupby` drops NaN keys (`dropna=True` default) and emits one group
per distinct remaining key. (pandas additionally sorts the groups by key;
no property below depends on the aggregate table's row order, and a left
merge's output is determined by the left table's order and the key→value
mapping alone, so first-occurrence order is an order-irrelevant choice.) -/
def groupKeys (key : Row → Option String) (df : List Row) : List String :=
  dropDupBy id [] (df.filterMap key)

/-- `df.groupby(k)[c].agg(...).reset_index()`: one `(key, aggregate)` pair per
distinct non-null key, aggregating over exactly the rows carrying that key. -/
def groupAgg {β : Type} (key : Row → Option String) (agg : List Row → β)
    (df : List Row) : List (String × β) :=
  (groupKeys key df).map (fun k => (k, agg (df.filter (fun r => decide (key r = some k)))))

/-- Sum of the `Sales` column over a list of rows. -/
def sumSales (rs : List Row) : Rat := (rs.map Row.sales).sum

/-- Max of the `Quantity` column over a (nonempty) group of rows; the `[]`
case is unreachable because every group contains at least one row. -/
def maxQuantity (rs : List Row) : Int :=
  match rs with
  | [] => 0
  | r :: rest => rest.foldl (fun a x => max a x.quantity) r.quantity

/-- Mean of the `Sales` column over a (nonempty) group of rows. -/
def meanSales (rs : List Row) : Rat := sumSales rs / (rs.length : Rat)

/-- Line 23: `df.groupby('Customer ID')['Sales'].sum()`, value column renamed
to `customers.SUM(sales.Sales)`. -/
def customer_sales (df : List Row) : List (String × Rat) :=
  groupAgg Row.customerId sumSales df

/-- Line 26: `df.groupby('Customer ID')['Quantity'].max()`, value column
renamed to `customers.MAX(sales.Quantity)`. -/
def customer_max_quantity (df : List Row) : List (String × Int) :=
  groupAgg Row.customerId maxQuantity df

/-- Line 29: `df.groupby('Product ID')['Sales'].sum()`, value column renamed
to `products.SUM(sales.Sales)`. -/
def product_sales (df : List Row) : List (String × Rat) :=
  groupAgg Row.productId sumSales df

/-- Line 32: `df.groupby('Product ID')['Sales'].mean()`, value column renamed
to `products.MEAN(sales.Sales)`. -/
def product_avg_sales (df : List Row) : List (String × Rat) :=
  groupAgg Row.productId meanSales df

/-- One row of the customer dimension: the column subset selected at
lines 40-43. -/
structure CustomerDimRow where
  customerId : Option String
  customerName : String
  segment : String
  country : String
  city : String
  state : String
  postalCode : String
deriving DecidableEq, Repr

/-- The column projection of lines 40-42. -/
def customerDimRowOf (r : Row) : CustomerDimRow :=
  { customerId := r.customerId, customerName := r.customerName, segment := r.segment,
    country := r.country, city := r.city, state := r.state, postalCode := r.postalCode }

/-- Lines 40-43: column subset, then `drop_duplicates(subset=['Customer ID'])`
keeping first occurrences, then `reset_index(drop=True)` (a no-op on a plain
list model, since the positional index is not an attribute). -/
def customer_dim (df : List Row) : List CustomerDimRow :=
  dropDupBy CustomerDimRow.customerId [] (df.map customerDimRowOf)

/-- One row of the product dimension: the column subset of lines 46-48. -/
structure ProductDimRow where
  productId : Option String
  productName : String
  category : String
  subCategory : String
deriving DecidableEq, Repr

/-- The column projection of lines 46-47. -/
def productDimRowOf (r : Row) : ProductDimRow :=
  { productId := r.productId, productName := r.productName,
    category := r.category, subCategory := r.subCategory }

/-- Lines 46-48: column subset, `drop_duplicates(subset=['Product ID'])`,
`reset_index(drop=True)`. -/
def product_dim (df : List Row) : List ProductDimRow :=
  dropDupBy ProductDimRow.productId [] (df.map productDimRowOf)

/-- One row of the order dimension: the column subset of lines 51-53. The
`Order Date` here is the raw text, because `order_dim` is built before
line 56 converts the column with `pd.to_datetime`. -/
structure OrderDimRow where
  orderId : Option String
  orderDate : String
  shipMode : String
deriving DecidableEq, Repr

/-- The column projection of lines 51-52. -/
def orderDimRowOf (r : Row) : OrderDimRow :=
  { orderId := r.orderId, orderDate := r.orderDate, shipMode := r.shipMode }

/-- Lines 51-53: column subset, `drop_duplicates(subset=['Order ID'])`,
`reset_index(drop=True)`. -/
def order_dim (df : List Row) : List OrderDimRow :=
  dropDupBy OrderDimRow.orderId [] (df.map orderDimRowOf)

/-- One row of the time dimension (lines 56-62): the parsed date plus the
four derived calendar columns. -/
structure TimeDimRow where
  date : Date
  day : Nat
  month : Nat
  quarter : Nat
  year : Int
deriving DecidableEq, Repr

/-- Lines 56-62: parse the `Order Date` column, keep one row per distinct
parsed date (`drop_duplicates` over the single-column frame, first
occurrence kept), and decorate each with `.dt.day`, `.dt.month`,
`.dt.quarter` and `.dt.year`. A pandas `Timestamp.quarter` for month `m`
is `(m - 1) // 3 + 1`. -/
def time_dim (parse : String → Date) (df : List Row) : List TimeDimRow :=
  (dropDupBy id [] (df.map (fun r => parse r.orderDate))).map
    (fun d => { date := d, day := d.day, month := d.month,
                quarter := (d.month - 1) / 3 + 1, year := d.year })

/-- One row of `sales_fact` before the final column projection: the column
subset of lines 66-69, the surrogate `Sale ID` of line 72, and the four
aggregate columns which the merges of lines 76-79 fill in (null until the
corresponding merge runs, null afterwards exactly on unmatched keys).
`date` is the parsed `Order Date` (line 56 converts the column in place
before line 66 selects it). Field names stand for the pandas columns
`customers.SUM(sales.Sales)`, `customers.MAX(sales.Quantity)`,
`products.SUM(sales.Sales)`, `products.MEAN(sales.Sales)`. -/
structure FactRow where
  saleId : Nat
  orderId : Option String
  productId : Option String
  customerId : Option String
  date : Date
  region : String
  sales : Rat
  quantity : Int
  discount : Rat
  profit : Rat
  custSumSales : Option Rat := none
  custMaxQty : Option Int := none
  prodSumSales : Option Rat := none
  prodMeanSales : Option Rat := none
deriving DecidableEq, Repr

/-- The row of the initial fact frame (lines 66-73) built from raw row `r`
with surrogate key `i`. -/
def baseFactRow (parse : String → Date) (i : Nat) (r : Row) : FactRow :=
  { saleId := i, orderId := r.orderId, productId := r.productId,
    customerId := r.customerId, date := parse r.orderDate, region := r.region,
    sales := r.sales, quantity := r.quantity, discount := r.discount,
    profit := r.profit }

/-- Lines 66-73: the initial fact frame, numbering rows `i, i+1, ...` in raw
row order; line 72's `range(1, len(sales_fact) + 1)` is the call with
`i = 1`. -/
def mkBase (parse : String → Date) : Nat → List Row → List FactRow
  | _, [] => []
  | i, r :: rs => baseFactRow parse i r :: mkBase parse (i + 1) rs

/-- `left.merge(right, on=key, how='left')` where `right` is a keyed
single-value table: each left row whose key matches `m` right rows yields
`m` output rows (one per match), and a left row with no match (including a
null key, which cannot match since groupby dropped null keys) yields one
output row with a null in the new column; left order is preserved. `upd`
writes the merged value into the fact row's new column. -/
def mergeRow {β : Type} (key : FactRow → Option String)
    (upd : FactRow → Option β → FactRow) (right : List (String × β))
    (fr : FactRow) : List FactRow :=
  match key fr with
  | none => [upd fr none]
  | some k =>
    let ms := right.filter (fun p => decide (p.1 = k))
    if ms.isEmpty then [upd fr none] else ms.map (fun p => upd fr (some p.2))

/-- `left.merge(right, on=key, how='left')`: the concatenation, in left
order, of each left row's `mergeRow` output. -/
def mergeLeft {β : Type} (key : FactRow → Option String)
    (upd : FactRow → Option β → FactRow) (right : List (String × β)) :
    List FactRow → List FactRow
  | [] => []
  | fr :: frs => mergeRow key upd right fr ++ mergeLeft key upd right frs

/-- The value a keyed single-value table associates to a (possibly null)
key: `none` on a null or unmatched key. When the table's keys are distinct
— as every groupby output's are — a left merge writes exactly this value
into the new column of each left row. -/
def lookupKey {β : Type} (right : List (String × β)) : Option String → Option β
  | none => none
  | some k => (right.find? (fun p => decide (p.1 = k))).map Prod.snd

/-- Writes the `customers.SUM(sales.Sales)` column. -/
def setCustSum (fr : FactRow) (v : Option Rat) : FactRow := { fr with custSumSales := v }

/-- Writes the `customers.MAX(sales.Quantity)` column. -/
def setCustMaxQty (fr : FactRow) (v : Option Int) : FactRow := { fr with custMaxQty := v }

/-- Writes the `products.SUM(sales.Sales)` column. -/
def setProdSum (fr : FactRow) (v : Option Rat) : FactRow := { fr with prodSumSales := v }

/-- Writes the `products.MEAN(sales.Sales)` column. -/
def setProdMean (fr : FactRow) (v : Option Rat) : FactRow := { fr with prodMeanSales := v }

/-- The fact frame after lines 66-73 (column subset plus `Sale ID`). -/
def sales_fact_stage0 (parse : String → Date) (df : List Row) : List FactRow :=
  mkBase parse 1 df

/-- After line 76: `sales_fact.merge(customer_sales, on='Customer ID', how='left')`. -/
def sales_fact_stage1 (parse : String → Date) (df : List Row) : List FactRow :=
  mergeLeft FactRow.customerId setCustSum (customer_sales df) (sales_fact_stage0 parse df)

/-- After line 77: merge of `customer_max_quantity` on `Customer ID`. -/
def sales_fact_stage2 (parse : String → Date) (df : List Row) : List FactRow :=
  mergeLeft FactRow.customerId setCustMaxQty (customer_max_quantity df) (sales_fact_stage1 parse df)

/-- After line 78: merge of `product_sales` on `Product ID`. -/
def sales_fact_stage3 (parse : String → Date) (df : List Row) : List FactRow :=
  mergeLeft FactRow.productId setProdSum (product_sales df) (sales_fact_stage2 parse df)

/-- After line 79: merge of `product_avg_sales` on `Product ID`. -/
def sales_fact_stage4 (parse : String → Date) (df : List Row) : List FactRow :=
  mergeLeft FactRow.productId setProdMean (product_avg_sales df) (sales_fact_stage3 parse df)

/-- One row of the final `sales_fact` table: the 13 columns selected at
lines 82-87, i.e. every `FactRow` column except `Region`, which the final
projection drops. -/
structure FinalFactRow where
  saleId : Nat
  orderId : Option String
  productId : Option String
  customerId : Option String
  date : Date
  sales : Rat
  quantity : Int
  discount : Rat
  profit : Rat
  custSumSales : Option Rat
  custMaxQty : Option Int
  prodSumSales : Option Rat
  prodMeanSales : Option Rat
deriving DecidableEq, Repr, Inhabited

/-- The final column selection of lines 82-87, applied to one row: keeps all
columns but `Region`, in the fixed final order. -/
def projectFinal (fr : FactRow) : FinalFactRow :=
  { saleId := fr.saleId, orderId := fr.orderId, productId := fr.productId,
    customerId := fr.customerId, date := fr.date, sales := fr.sales,
    quantity := fr.quantity, discount := fr.discount, profit := fr.profit,
    custSumSales := fr.custSumSales, custMaxQty := fr.custMaxQty,
    prodSumSales := fr.prodSumSales, prodMeanSales := fr.prodMeanSales }

/-- Lines 66-87: the final `sales_fact` table. -/
def sales_fact (parse : String → Date) (df : List Row) : List FinalFactRow :=
  (sales_fact_stage4 parse df).map projectFinal

/-- The five output tables of one transform run, in the order the `tables`
dict of lines 95-101 enumerates them. -/
def allTables (parse : String → Date) (df : List Row) :
    List CustomerDimRow × List ProductDimRow × List OrderDimRow ×
      List TimeDimRow × List FinalFactRow :=
  (customer_dim df, product_dim df, order_dim df, time_dim parse df, sales_fact parse df)

/-! Run-level model of one invocation of `etl_pipeline(event, context)`:
the external outcomes (blob download, CSV decode, date parsing, each
BigQuery load job) are an explicit `World`; the transform stage is modelled
at the level of its column accesses, which is what decides whether it
raises a `KeyError`; the `try/except` of lines 7 and 112-113 is the outer
boundary. -/

/-- The trigger event: a record with fields `bucket` and `name`
(lines 9-10). -/
structure Event where
  bucket : String
  name : String

/-- The 19 columns the transform stage reads, in order of first access:
the groupbys of lines 23-33, the dimension selections of lines 40-53, the
date conversion of line 56, and the fact selection of lines 66-69.
Spec section 6 lists exactly this set as the required raw schema. -/
def requiredColumns : List String :=
  ["Customer ID", "Sales", "Quantity", "Product ID",
   "Customer Name", "Segment", "Country", "City", "State", "Postal Code",
   "Product Name", "Category", "Sub-Category",
   "Order ID", "Order Date", "Ship Mode",
   "Region", "Discount", "Profit"]

/-- The destination namespace of line 93. -/
def dataset_id : String := "data-mining-assignment-442318.etl_output"

/-- The keys of the `tables` dict (lines 95-101), in insertion order, which
is the order the load loop of line 103 iterates them. -/
def tableNames : List String :=
  ["customer_dim", "product_dim", "order_dim", "time_dim", "sales_fact"]

/-- Line 104: the full destination id of a logical table. -/
def tableIdOf (n : String) : String := String.append (String.append dataset_id ".") n

/-- Modelled from the spec: the write semantics of the analytical-store
client call `bq_client.load_table_from_dataframe` (line 106) live in the
external BigQuery client, not in this repository; the spec's boundary
contract (sections 4.4 and 6) states them as overwrite-or-create. -/
inductive WriteMode where
  | overwriteOrCreate
deriving DecidableEq, Repr

/-- One destination write attempted by the load loop (lines 103-108):
the logical table name, the full table id it is loaded to, the write mode,
and whether the loop blocked on `job.result()` before proceeding
(line 107). -/
structure WriteEvent where
  tableName : String
  tableId : String
  mode : WriteMode
  waitedForCompletion : Bool
deriving DecidableEq, Repr

/-- The external outcomes one invocation can observe: the result of
`blob.download_as_text()` (line 18), of `pd.read_csv` (line 19, yielding the
header column names on success), of `pd.to_datetime` (line 56), and of each
load job's `job.result()` (lines 106-107), keyed by destination table id.
An `Except.error` value is the message of the exception the corresponding
call raises. -/
structure World where
  downloadResult : String → String → Except String String
  parseResult : String → Except String (List String)
  toDatetimeResult : Except String Unit
  writeOk : String → Bool

/-- The first entry of `required` missing from `cols`, if any: the column
whose access raises the transform stage's `KeyError`. -/
def firstMissing (cols : List String) : List String → Option String
  | [] => none
  | c :: cs => if c ∈ cols then firstMissing cols cs else some c

/-- The transform stage (lines 21-87) at column granularity: every column of
`requiredColumns` is accessed (the first missing one raises a `KeyError`),
then line 56's `pd.to_datetime` runs; on success the stage completes and the
five tables of `allTables` exist in memory. -/
def transformSchema (w : World) (cols : List String) : Except String Unit :=
  match firstMissing cols requiredColumns with
  | some c => Except.error (String.append "KeyError: " c)
  | none => w.toDatetimeResult

/-- Lines 103-108: load each table in turn; each iteration starts the load
job for `{dataset_id}.{table_name}` and blocks on `job.result()`, so the
next table's write starts only after the previous one completed, and a
failing `job.result()` raises, aborting the remaining writes. Returns the
writes attempted and the stage outcome. -/
def writeLoop (w : World) : List String → List WriteEvent × Except String Unit
  | [] => ([], Except.ok ())
  | n :: ns =>
    let ev : WriteEvent :=
      { tableName := n, tableId := tableIdOf n,
        mode := WriteMode.overwriteOrCreate, waitedForCompletion := true }
    if w.writeOk (tableIdOf n) then
      let rest := writeLoop w ns
      (ev :: rest.1, rest.2)
    else ([ev], Except.error (String.append "load job failed: " (tableIdOf n)))

/-- The body of the `try` block (lines 8-110): download, decode, transform,
then the load loop. Returns the destination writes attempted and either
`ok` or the message of the first exception raised. -/
def runInner (w : World) (ev : Event) : List WriteEvent × Except String Unit :=
  match w.downloadResult ev.bucket ev.name with
  | Except.error e => ([], Except.error e)
  | Except.ok text =>
    match w.parseResult text with
    | Except.error e => ([], Except.error e)
    | Except.ok cols =>
      match transformSchema w cols with
      | Except.error e => ([], Except.error e)
      | Except.ok () => writeLoop w tableNames

/-- What one invocation of `etl_pipeline` looks like to its caller and its
log: the writes it attempted, the error line it printed (if any), and the
exception it propagated (`none` means it returned normally; the Python
function always falls off the end, returning `None`). -/
structure RunOutcome where
  writesAttempted : List WriteEvent
  loggedError : Option String
  raised : Option String
deriving DecidableEq, Repr

/-- Lines 5-113: `etl_pipeline(event, context)`. The single `except
Exception` of line 112 catches any exception of the body, prints
`An error occurred during the ETL process: {e}` (line 113) and falls
through, so the function returns normally on both paths. -/
def etl_pipeline (w : World) (ev : Event) : RunOutcome :=
  match runInner w ev with
  | (log, Except.ok ()) =>
    { writesAttempted := log, loggedError := none, raised := none }
  | (log, Except.error e) =>
    { writesAttempted := log,
      loggedError := some (String.append "An error occurred during the ETL process: " e),
      raised := none }

/-- The quarter of a date computed independently of the pipeline, by the
stated formula: quarter = ((month - 1) / 3) + 1. -/
def quarterOfDate (d : Date) : Nat := (d.month - 1) / 3 + 1

/-! Concrete sample data used to evaluate the definitions on closed
inputs. -/

/-- A concrete stand-in for `pd.to_datetime` on the sample data. -/
def sampleParse : String → Date := fun s =>
  if s = "2024-03-15" then { year := 2024, month := 3, day := 15 }
  else { year := 2024, month := 11, day := 2 }

/-- A concrete raw row. -/
def sampleRow1 : Row :=
  { orderId := some "O1", productId := some "P1", customerId := some "C1",
    orderDate := "2024-03-15", region := "West", sales := 3, quantity := 2,
    discount := 0, profit := 1, customerName := "Ann", segment := "Consumer",
    country := "US", city := "LA", state := "CA", postalCode := "90001",
    productName := "Pen", category := "Office", subCategory := "Writing",
    shipMode := "Air" }

/-- A second raw row for the same customer, different product and date. -/
def sampleRow2 : Row :=
  { sampleRow1 with
    orderId := some "O2", productId := some "P2"
    orderDate := "2024-11-02", sales := 5, quantity := 7 }

/-- A concrete two-row raw table. -/
def sampleDf : List Row := [sampleRow1, sampleRow2]

/-- The first fact row the pipeline produces from `sampleDf` (customer C1:
raw sales 3 and 5, max quantity 7; product P1: total and mean sales 3). -/
def sampleFact1 : FinalFactRow := (sales_fact sampleParse sampleDf).headI

/-- The first time-dimension row produced from `sampleDf`. -/
def sampleTime1 : TimeDimRow :=
  { date := { year := 2024, month := 3, day := 15 },
    day := 15, month := 3, quarter := 1, year := 2024 }

/-- A concrete trigger event. -/
def sampleEvent : Event := { bucket := "raw-bucket", name := "sales.csv" }

/-- A world in which every external call succeeds and the CSV carries the
full required schema. -/
def sampleWorldOk : World :=
  { downloadResult := fun _ _ => Except.ok "csv-bytes",
    parseResult := fun _ => Except.ok requiredColumns,
    toDatetimeResult := Except.ok (),
    writeOk := fun _ => true }

/-- A world in which the blob download raises. -/
def sampleWorldFail : World :=
  { downloadResult := fun _ _ => Except.error "object not found",
    parseResult := fun _ => Except.ok requiredColumns,
    toDatetimeResult := Except.ok (),
    writeOk := fun _ => true }

/-- The required schema with the `Discount` column removed. -/
def sampleColsMissing : List String := requiredColumns.erase "Discount"

/-- A world whose CSV decodes to a header lacking `Discount`. -/
def sampleWorldMissing : World :=
  { downloadResult := fun _ _ => Except.ok "csv-bytes",
    parseResult := fun _ => Except.ok sampleColsMissing,
    toDatetimeResult := Except.ok (),
    writeOk := fun _ => true }

/-! General lemmas about the embedded pandas operations. -/

theorem mem_of_mem_dropDupBy {α κ : Type} [DecidableEq κ] (key : α → κ) :
    ∀ (seen : List κ) (l : List α) (x : α), x ∈ dropDupBy key seen l → x ∈ l := by
  intro seen l
  induction l generalizing seen with
  | nil => intro x h; simp [dropDupBy] at h
  | cons a as ih =>
    intro x h
    simp only [dropDupBy] at h
    by_cases hm : key a ∈ seen
    · rw [if_pos hm] at h
      exact List.mem_cons_of_mem a (ih seen x h)
    · rw [if_neg hm] at h
      rcases List.mem_cons.mp h with h1 | h2
      · simp [h1]
      · exact List.mem_cons_of_mem a (ih _ x h2)

theorem mem_map_key_dropDupBy {α κ : Type} [DecidableEq κ] (key : α → κ) :
    ∀ (seen : List κ) (l : List α) (k : κ),
      k ∈ (dropDupBy key seen l).map key ↔ k ∈ l.map key ∧ k ∉ seen := by
  intro seen l
  induction l generalizing seen with
  | nil => simp [dropDupBy]
  | cons a as ih =>
    intro k
    simp only [dropDupBy]
    by_cases hm : key a ∈ seen
    · rw [if_pos hm, ih seen k]
      simp only [List.map_cons, List.mem_cons]
      constructor
      · rintro ⟨h1, h2⟩
        exact ⟨Or.inr h1, h2⟩
      · rintro ⟨h1 | h1, h2⟩
        · exact absurd (h1 ▸ hm) h2
        · exact ⟨h1, h2⟩
    · rw [if_neg hm]
      simp only [List.map_cons, List.mem_cons, ih (key a :: seen) k]
      constructor
      · rintro (h | ⟨h1, h2⟩)
        · exact ⟨Or.inl h, h ▸ hm⟩
        · exact ⟨Or.inr h1, fun hk => h2 (Or.inr hk)⟩
      · rintro ⟨h1 | h1, h2⟩
        · exact Or.inl h1
        · by_cases hek : k = key a
          · exact Or.inl hek
          · exact Or.inr ⟨h1, fun hk => hk.elim hek h2⟩

theorem nodup_map_key_dropDupBy {α κ : Type} [DecidableEq κ] (key : α → κ) :
    ∀ (seen : List κ) (l : List α), ((dropDupBy key seen l).map key).Nodup := by
  intro seen l
  induction l generalizing seen with
  | nil => simp [dropDupBy]
  | cons a as ih =>
    by_cases hm : key a ∈ seen
    · simpa [dropDupBy, hm] using ih seen
    · simp only [dropDupBy, if_neg hm, List.map_cons, List.nodup_cons]
      refine ⟨fun hmem => ?_, ih (key a :: seen)⟩
      exact ((mem_map_key_dropDupBy key (key a :: seen) as (key a)).mp hmem).2
        (List.mem_cons_self _ _)

theorem find?_of_mem_dropDupBy {α κ : Type} [DecidableEq κ] (key : α → κ) :
    ∀ (seen : List κ) (l : List α) (x : α), x ∈ dropDupBy key seen l →
      key x ∉ seen ∧ l.find? (fun a => decide (key a = key x)) = some x := by
  intro seen l
  induction l generalizing seen with
  | nil => intro x h; simp [dropDupBy] at h
  | cons a as ih =>
    intro x h
    simp only [dropDupBy] at h
    by_cases hm : key a ∈ seen
    · rw [if_pos hm] at h
      obtain ⟨h1, h2⟩ := ih seen x h
      have hne : ¬(key a = key x) := fun he => h1 (he ▸ hm)
      exact ⟨h1, by rw [List.find?_cons_of_neg _ (by simpa using hne)]; exact h2⟩
    · rw [if_neg hm] at h
      rcases List.mem_cons.mp h with h1 | h2
      · subst h1
        exact ⟨hm, by rw [List.find?_cons_of_pos _ (by simp)]⟩
      · obtain ⟨h1, h2⟩ := ih (key a :: seen) x h2
        have hxa : ¬(key a = key x) :=
          fun he => h1 (he ▸ List.mem_cons_self _ _)
        refine ⟨fun hk => h1 (List.mem_cons_of_mem _ hk), ?_⟩
        rw [List.find?_cons_of_neg _ (by simpa using hxa)]
        exact h2

theorem map_fst_groupAgg {β : Type} (key : Row → Option String)
    (agg : List Row → β) (df : List Row) :
    (groupAgg key agg df).map Prod.fst = groupKeys key df := by
  unfold groupAgg
  generalize groupKeys key df = ks
  induction ks with
  | nil => rfl
  | cons k ks ih => simpa using ih

theorem nodup_groupKeys (key : Row → Option String) (df : List Row) :
    (groupKeys key df).Nodup := by
  simpa using nodup_map_key_dropDupBy (id : String → String) [] (df.filterMap key)

theorem nodup_map_fst_groupAgg {β : Type} (key : Row → Option String)
    (agg : List Row → β) (df : List Row) :
    ((groupAgg key agg df).map Prod.fst).Nodup := by
  rw [map_fst_groupAgg]
  exact nodup_groupKeys key df

theorem mem_groupKeys_iff (key : Row → Option String) (df : List Row) (k : String) :
    k ∈ groupKeys key df ↔ ∃ r ∈ df, key r = some k := by
  have h := mem_map_key_dropDupBy (id : String → String) [] (df.filterMap key) k
  simp only [List.map_id] at h
  rw [groupKeys, h]
  simp [List.mem_filterMap]

theorem filter_key_eq_nil {β : Type} (right : List (String × β)) (k : String)
    (h : k ∉ right.map Prod.fst) :
    right.filter (fun p => decide (p.1 = k)) = [] := by
  induction right with
  | nil => rfl
  | cons p ps ih =>
    simp only [List.map_cons, List.mem_cons] at h
    push_neg at h
    rw [List.filter_cons, if_neg (by simpa using fun he => h.1 he.symm)]
    exact ih h.2

theorem filter_key_of_nodup {β : Type} (right : List (String × β)) (k : String)
    (hnd : (right.map Prod.fst).Nodup) :
    right.filter (fun p => decide (p.1 = k)) =
      (right.find? (fun p => decide (p.1 = k))).toList := by
  induction right with
  | nil => rfl
  | cons p ps ih =>
    simp only [List.map_cons, List.nodup_cons] at hnd
    obtain ⟨hp, hps⟩ := hnd
    by_cases he : p.1 = k
    · subst he
      rw [List.filter_cons, if_pos (by simp), List.find?_cons_of_pos _ (by simp),
        filter_key_eq_nil ps p.1 hp]
      rfl
    · rw [List.filter_cons, if_neg (by simpa using he),
        List.find?_cons_of_neg _ (by simpa using he)]
      exact ih hps

theorem mergeRow_eq {β : Type} (key : FactRow → Option String)
    (upd : FactRow → Option β → FactRow) (right : List (String × β))
    (hnd : (right.map Prod.fst).Nodup) (fr : FactRow) :
    mergeRow key upd right fr = [upd fr (lookupKey right (key fr))] := by
  cases hk : key fr with
  | none => simp [mergeRow, lookupKey, hk]
  | some k =>
    simp only [mergeRow, hk, lookupKey]
    rw [filter_key_of_nodup right k hnd]
    cases hf : right.find? (fun p => decide (p.1 = k)) with
    | none => simp
    | some pr => simp

theorem mergeLeft_eq_map {β : Type} (key : FactRow → Option String)
    (upd : FactRow → Option β → FactRow) (right : List (String × β))
    (hnd : (right.map Prod.fst).Nodup) :
    ∀ left, mergeLeft key upd right left =
      left.map (fun fr => upd fr (lookupKey right (key fr))) := by
  intro left
  induction left with
  | nil => rfl
  | cons fr frs ih =>
    simp only [mergeLeft, List.map_cons, ih, mergeRow_eq key upd right hnd fr,
      List.singleton_append]

theorem find?_map_pairs {β : Type} (g : String → β) :
    ∀ (ks : List String) (k : String), k ∈ ks →
      (ks.map (fun x => (x, g x))).find? (fun p => decide (p.1 = k)) = some (k, g k) := by
  intro ks
  induction ks with
  | nil => intro k hk; cases hk
  | cons a as ih =>
    intro k hk
    by_cases he : a = k
    · subst he
      rw [List.map_cons, List.find?_cons_of_pos _ (by simp)]
    · rcases List.mem_cons.mp hk with h | h
      · exact absurd h.symm he
      · rw [List.map_cons, List.find?_cons_of_neg _ (by simpa using he)]
        exact ih k h

theorem lookupKey_groupAgg {β : Type} (key : Row → Option String)
    (agg : List Row → β) (df : List Row) (k : String)
    (hk : k ∈ groupKeys key df) :
    lookupKey (groupAgg key agg df) (some k) =
      some (agg (df.filter (fun r => decide (key r = some k)))) := by
  simp only [lookupKey, groupAgg]
  rw [find?_map_pairs _ (groupKeys key df) k hk]
  rfl

theorem length_mkBase (parse : String → Date) :
    ∀ (i : Nat) (df : List Row), (mkBase parse i df).length = df.length := by
  intro i df
  induction df generalizing i with
  | nil => rfl
  | cons r rs ih => simp [mkBase, ih]

theorem map_saleId_mkBase (parse : String → Date) :
    ∀ (i : Nat) (df : List Row),
      (mkBase parse i df).map FactRow.saleId = List.range' i df.length := by
  intro i df
  induction df generalizing i with
  | nil => rfl
  | cons r rs ih => simp [mkBase, baseFactRow, List.range'_succ, ih]

theorem mem_mkBase (parse : String → Date) :
    ∀ (i : Nat) (df : List Row) (fr : FactRow), fr ∈ mkBase parse i df →
      ∃ j r, r ∈ df ∧ fr = baseFactRow parse j r := by
  intro i df
  induction df generalizing i with
  | nil => intro fr h; cases h
  | cons r rs ih =>
    intro fr h
    rcases List.mem_cons.mp h with h1 | h2
    · exact ⟨i, r, List.mem_cons_self _ _, h1⟩
    · obtain ⟨j, r2, hr2, he⟩ := ih (i + 1) fr h2
      exact ⟨j, r2, List.mem_cons_of_mem _ hr2, he⟩

theorem mem_groupKeys_of_mem (key : Row → Option String) (df : List Row)
    (r : Row) (k : String) (hr : r ∈ df) (hk : key r = some k) :
    k ∈ groupKeys key df :=
  (mem_groupKeys_iff key df k).mpr ⟨r, hr, hk⟩

theorem sales_fact_stage4_closed (parse : String → Date) (df : List Row) :
    sales_fact_stage4 parse df = (mkBase parse 1 df).map (fun fr =>
      { fr with
        custSumSales := lookupKey (customer_sales df) fr.customerId
        custMaxQty := lookupKey (customer_max_quantity df) fr.customerId
        prodSumSales := lookupKey (product_sales df) fr.productId
        prodMeanSales := lookupKey (product_avg_sales df) fr.productId }) := by
  unfold sales_fact_stage4 sales_fact_stage3 sales_fact_stage2 sales_fact_stage1
    sales_fact_stage0
  rw [mergeLeft_eq_map FactRow.customerId setCustSum (customer_sales df)
      (nodup_map_fst_groupAgg Row.customerId sumSales df),
    mergeLeft_eq_map FactRow.customerId setCustMaxQty (customer_max_quantity df)
      (nodup_map_fst_groupAgg Row.customerId maxQuantity df),
    mergeLeft_eq_map FactRow.productId setProdSum (product_sales df)
      (nodup_map_fst_groupAgg Row.productId sumSales df),
    mergeLeft_eq_map FactRow.productId setProdMean (product_avg_sales df)
      (nodup_map_fst_groupAgg Row.productId meanSales df)]
  simp only [List.map_map]
  rfl

theorem mem_sales_fact_struct (parse : String → Date) (df : List Row)
    (fr : FinalFactRow) (hfr : fr ∈ sales_fact parse df) :
    ∃ r, r ∈ df ∧ fr.customerId = r.customerId ∧ fr.productId = r.productId ∧
      fr.custSumSales = lookupKey (customer_sales df) r.customerId ∧
      fr.custMaxQty = lookupKey (customer_max_quantity df) r.customerId ∧
      fr.prodSumSales = lookupKey (product_sales df) r.productId ∧
      fr.prodMeanSales = lookupKey (product_avg_sales df) r.productId := by
  unfold sales_fact at hfr
  rw [sales_fact_stage4_closed] at hfr
  rw [List.map_map] at hfr
  obtain ⟨fb, hfb, he⟩ := List.mem_map.mp hfr
  obtain ⟨j, r, hr, hbe⟩ := mem_mkBase parse 1 df fb hfb
  subst hbe
  subst he
  exact ⟨r, hr, rfl, rfl, rfl, rfl, rfl, rfl⟩

theorem length_mergeLeft {β : Type} (key : FactRow → Option String)
    (upd : FactRow → Option β → FactRow) (right : List (String × β))
    (hnd : (right.map Prod.fst).Nodup) (left : List FactRow) :
    (mergeLeft key upd right left).length = left.length := by
  rw [mergeLeft_eq_map key upd right hnd left, List.length_map]

theorem saleId_stage1 (parse : String → Date) (df : List Row) :
    (sales_fact_stage1 parse df).map FactRow.saleId =
      (sales_fact_stage0 parse df).map FactRow.saleId := by
  rw [sales_fact_stage1, mergeLeft_eq_map FactRow.customerId setCustSum (customer_sales df)
      (nodup_map_fst_groupAgg Row.customerId sumSales df), List.map_map]
  rfl

theorem saleId_stage2 (parse : String → Date) (df : List Row) :
    (sales_fact_stage2 parse df).map FactRow.saleId =
      (sales_fact_stage1 parse df).map FactRow.saleId := by
  rw [sales_fact_stage2, mergeLeft_eq_map FactRow.customerId setCustMaxQty
      (customer_max_quantity df)
      (nodup_map_fst_groupAgg Row.customerId maxQuantity df), List.map_map]
  rfl

theorem saleId_stage3 (parse : String → Date) (df : List Row) :
    (sales_fact_stage3 parse df).map FactRow.saleId =
      (sales_fact_stage2 parse df).map FactRow.saleId := by
  rw [sales_fact_stage3, mergeLeft_eq_map FactRow.productId setProdSum (product_sales df)
      (nodup_map_fst_groupAgg Row.productId sumSales df), List.map_map]
  rfl

theorem saleId_stage4 (parse : String → Date) (df : List Row) :
    (sales_fact_stage4 parse df).map FactRow.saleId =
      (sales_fact_stage3 parse df).map FactRow.saleId := by
  rw [sales_fact_stage4, mergeLeft_eq_map FactRow.productId setProdMean (product_avg_sales df)
      (nodup_map_fst_groupAgg Row.productId meanSales df), List.map_map]
  rfl

/-! The claims. -/

/-- C1: For every raw input table, the sales_fact table produced by the
Schema Builder has exactly as many rows as the raw table: each of the four
aggregate left-joins (lines 76-79) leaves the fact row count unchanged,
which holds because each aggregate table has at most one row per grouping
key (its key column is duplicate-free), and the final projection keeps the
count as well. -/
theorem fact_row_count_invariant (parse : String → Date) (df : List Row) :
    ((customer_sales df).map Prod.fst).Nodup ∧
    ((customer_max_quantity df).map Prod.fst).Nodup ∧
    ((product_sales df).map Prod.fst).Nodup ∧
    ((product_avg_sales df).map Prod.fst).Nodup ∧
    (sales_fact_stage1 parse df).length = (sales_fact_stage0 parse df).length ∧
    (sales_fact_stage2 parse df).length = (sales_fact_stage1 parse df).length ∧
    (sales_fact_stage3 parse df).length = (sales_fact_stage2 parse df).length ∧
    (sales_fact_stage4 parse df).length = (sales_fact_stage3 parse df).length ∧
    (sales_fact parse df).length = df.length := by
  have h1 := length_mergeLeft FactRow.customerId setCustSum (customer_sales df)
    (nodup_map_fst_groupAgg Row.customerId sumSales df) (sales_fact_stage0 parse df)
  have h2 := length_mergeLeft FactRow.customerId setCustMaxQty (customer_max_quantity df)
    (nodup_map_fst_groupAgg Row.customerId maxQuantity df) (sales_fact_stage1 parse df)
  have h3 := length_mergeLeft FactRow.productId setProdSum (product_sales df)
    (nodup_map_fst_groupAgg Row.productId sumSales df) (sales_fact_stage2 parse df)
  have h4 := length_mergeLeft FactRow.productId setProdMean (product_avg_sales df)
    (nodup_map_fst_groupAgg Row.productId meanSales df) (sales_fact_stage3 parse df)
  refine ⟨nodup_map_fst_groupAgg Row.customerId sumSales df,
    nodup_map_fst_groupAgg Row.customerId maxQuantity df,
    nodup_map_fst_groupAgg Row.productId sumSales df,
    nodup_map_fst_groupAgg Row.productId meanSales df, h1, h2, h3, h4, ?_⟩
  rw [sales_fact, List.length_map, sales_fact_stage4, h4, sales_fact_stage3, h3,
    sales_fact_stage2, h2, sales_fact_stage1, h1, sales_fact_stage0,
    length_mkBase parse 1 df]

/-- C2: For every raw input table with N rows, the Sale ID column of
sales_fact is exactly the sequence 1, 2, ..., N in raw row order
(`range(1, len(sales_fact) + 1)`, line 72), and the assignment is unchanged
by each of the four left-joins and by the final column projection. -/
theorem sale_id_is_one_to_n (parse : String → Date) (df : List Row) :
    (sales_fact_stage0 parse df).map FactRow.saleId = List.range' 1 df.length ∧
    (sales_fact_stage1 parse df).map FactRow.saleId = List.range' 1 df.length ∧
    (sales_fact_stage2 parse df).map FactRow.saleId = List.range' 1 df.length ∧
    (sales_fact_stage3 parse df).map FactRow.saleId = List.range' 1 df.length ∧
    (sales_fact_stage4 parse df).map FactRow.saleId = List.range' 1 df.length ∧
    (sales_fact parse df).map FinalFactRow.saleId = List.range' 1 df.length := by
  have h0 : (sales_fact_stage0 parse df).map FactRow.saleId = List.range' 1 df.length := by
    rw [sales_fact_stage0, map_saleId_mkBase parse 1 df]
  have h1 := (saleId_stage1 parse df).trans h0
  have h2 := (saleId_stage2 parse df).trans h1
  have h3 := (saleId_stage3 parse df).trans h2
  have h4 := (saleId_stage4 parse df).trans h3
  refine ⟨h0, h1, h2, h3, h4, ?_⟩
  rw [sales_fact, List.map_map]
  exact h4

/-- C3: For every raw input table and every customer identifier present in
it, the `customers.SUM(sales.Sales)` value on any fact row carrying that
customer identifier equals the sum of the Sales values over all raw rows
with that customer identifier, recomputed here directly over the raw table
rather than read back through the groupby-and-merge pipeline. -/
theorem customer_sum_sales_correct (parse : String → Date) (df : List Row)
    (k : String) (fr : FinalFactRow) (hfr : fr ∈ sales_fact parse df)
    (hk : fr.customerId = some k) :
    fr.custSumSales =
      some (((df.filter (fun r => decide (r.customerId = some k))).map Row.sales).sum) := by
  obtain ⟨r, hr, hcust, _, hsum, _, _, _⟩ := mem_sales_fact_struct parse df fr hfr
  rw [hk] at hcust
  rw [hsum, ← hcust]
  have hmem : k ∈ groupKeys Row.customerId df :=
    mem_groupKeys_of_mem Row.customerId df r k hr hcust.symm
  exact lookupKey_groupAgg Row.customerId sumSales df k hmem

/-- C10: For every raw input table and every fact row whose Customer ID
(respectively Product ID) is non-null, the merged aggregate columns
`customers.SUM(sales.Sales)` and `customers.MAX(sales.Quantity)`
(respectively `products.SUM(sales.Sales)` and `products.MEAN(sales.Sales)`)
are non-null: the left join's unmatched-key branch is unreachable for
non-null keys, because the aggregate tables are grouped from the same raw
table the fact rows come from. -/
theorem aggregate_columns_nonnull (parse : String → Date) (df : List Row)
    (fr : FinalFactRow) (hfr : fr ∈ sales_fact parse df) :
    (∀ k, fr.customerId = some k → fr.custSumSales.isSome ∧ fr.custMaxQty.isSome) ∧
    (∀ k, fr.productId = some k → fr.prodSumSales.isSome ∧ fr.prodMeanSales.isSome) := by
  obtain ⟨r, hr, hcust, hprod, hsum, hmax, hpsum, hpmean⟩ :=
    mem_sales_fact_struct parse df fr hfr
  constructor
  · intro k hk
    rw [hk] at hcust
    have hmem : k ∈ groupKeys Row.customerId df :=
      mem_groupKeys_of_mem Row.customerId df r k hr hcust.symm
    refine ⟨?_, ?_⟩
    · rw [hsum, ← hcust]
      show (lookupKey (groupAgg Row.customerId sumSales df) (some k)).isSome = true
      rw [lookupKey_groupAgg Row.customerId sumSales df k hmem]
      rfl
    · rw [hmax, ← hcust]
      show (lookupKey (groupAgg Row.customerId maxQuantity df) (some k)).isSome = true
      rw [lookupKey_groupAgg Row.customerId maxQuantity df k hmem]
      rfl
  · intro k hk
    rw [hk] at hprod
    have hmem : k ∈ groupKeys Row.productId df :=
      mem_groupKeys_of_mem Row.productId df r k hr hprod.symm
    refine ⟨?_, ?_⟩
    · rw [hpsum, ← hprod]
      show (lookupKey (groupAgg Row.productId sumSales df) (some k)).isSome = true
      rw [lookupKey_groupAgg Row.productId sumSales df k hmem]
      rfl
    · rw [hpmean, ← hprod]
      show (lookupKey (groupAgg Row.productId meanSales df) (some k)).isSome = true
      rw [lookupKey_groupAgg Row.productId meanSales df k hmem]
      rfl

/-- C9: The transform from the decoded raw table to the five output tables
is deterministic: two runs on identical raw tables (identical input bytes
decode to identical tables in the same row order) produce identical
customer_dim, product_dim, order_dim, time_dim and sales_fact. The
embedding of the transform is a pure function of the raw table, and the
source has no other inputs to these five tables. -/
theorem transform_deterministic (parse : String → Date) (df1 df2 : List Row)
    (h : df1 = df2) : allTables parse df1 = allTables parse df2 := by
  rw [h]

theorem find?_map_comp {α δ : Type} (f : α → δ) (p : δ → Bool) :
    ∀ (l : List α) (d : δ), (l.map f).find? p = some d →
      ∃ a, l.find? (fun x => p (f x)) = some a ∧ f a = d := by
  intro l
  induction l with
  | nil => intro d h; simp at h
  | cons a as ih =>
    intro d h
    by_cases hp : p (f a) = true
    · rw [List.map_cons, List.find?_cons_of_pos _ hp] at h
      exact ⟨a, List.find?_cons_of_pos _ hp, by injection h⟩
    · rw [List.map_cons, List.find?_cons_of_neg _ hp] at h
      obtain ⟨a2, h1, h2⟩ := ih d h
      exact ⟨a2, (List.find?_cons_of_neg as hp).trans h1, h2⟩

theorem dim_table_spec {δ : Type} [DecidableEq δ] {κ : Type} [DecidableEq κ]
    (proj : Row → δ) (dimKey : δ → κ) (df : List Row) :
    ((dropDupBy dimKey [] (df.map proj)).map dimKey).Nodup ∧
    (∀ r ∈ df, ∃ d ∈ dropDupBy dimKey [] (df.map proj), dimKey d = dimKey (proj r)) ∧
    (∀ d ∈ dropDupBy dimKey [] (df.map proj),
      ∃ r, df.find? (fun x => decide (dimKey (proj x) = dimKey d)) = some r ∧ d = proj r) := by
  refine ⟨nodup_map_key_dropDupBy dimKey [] (df.map proj), ?_, ?_⟩
  · intro r hr
    have h1 : dimKey (proj r) ∈ (df.map proj).map dimKey :=
      List.mem_map_of_mem dimKey (List.mem_map_of_mem proj hr)
    have h2 : dimKey (proj r) ∈ (dropDupBy dimKey [] (df.map proj)).map dimKey :=
      (mem_map_key_dropDupBy dimKey [] (df.map proj) (dimKey (proj r))).mpr
        ⟨h1, List.not_mem_nil _⟩
    obtain ⟨d, hd, he⟩ := List.mem_map.mp h2
    exact ⟨d, hd, he⟩
  · intro d hd
    have h1 := (find?_of_mem_dropDupBy dimKey [] (df.map proj) d hd).2
    obtain ⟨r, h2, h3⟩ := find?_map_comp proj
      (fun a => decide (dimKey a = dimKey d)) df d h1
    exact ⟨r, h2, h3.symm⟩

/-- C4: For every raw input table, each of the customer, product and order
dimension tables has a duplicate-free key column (`Customer ID`,
`Product ID`, `Order ID` respectively), every key value present in the raw
table appears in the corresponding dimension, and each dimension row is the
projection of the first raw row carrying its key (pandas
`drop_duplicates(..., keep='first')` default). -/
theorem dimension_tables_dedup (df : List Row) :
    (((customer_dim df).map CustomerDimRow.customerId).Nodup ∧
      (∀ r ∈ df, ∃ d ∈ customer_dim df, d.customerId = r.customerId) ∧
      (∀ d ∈ customer_dim df,
        ∃ r, df.find? (fun x => decide (x.customerId = d.customerId)) = some r ∧
          d = customerDimRowOf r)) ∧
    (((product_dim df).map ProductDimRow.productId).Nodup ∧
      (∀ r ∈ df, ∃ d ∈ product_dim df, d.productId = r.productId) ∧
      (∀ d ∈ product_dim df,
        ∃ r, df.find? (fun x => decide (x.productId = d.productId)) = some r ∧
          d = productDimRowOf r)) ∧
    (((order_dim df).map OrderDimRow.orderId).Nodup ∧
      (∀ r ∈ df, ∃ d ∈ order_dim df, d.orderId = r.orderId) ∧
      (∀ d ∈ order_dim df,
        ∃ r, df.find? (fun x => decide (x.orderId = d.orderId)) = some r ∧
          d = orderDimRowOf r)) := by
  refine ⟨⟨?_, ?_, ?_⟩, ⟨?_, ?_, ?_⟩, ⟨?_, ?_, ?_⟩⟩
  · exact (dim_table_spec customerDimRowOf CustomerDimRow.customerId df).1
  · exact (dim_table_spec customerDimRowOf CustomerDimRow.customerId df).2.1
  · exact (dim_table_spec customerDimRowOf CustomerDimRow.customerId df).2.2
  · exact (dim_table_spec productDimRowOf ProductDimRow.productId df).1
  · exact (dim_table_spec productDimRowOf ProductDimRow.productId df).2.1
  · exact (dim_table_spec productDimRowOf ProductDimRow.productId df).2.2
  · exact (dim_table_spec orderDimRowOf OrderDimRow.orderId df).1
  · exact (dim_table_spec orderDimRowOf OrderDimRow.orderId df).2.1
  · exact (dim_table_spec orderDimRowOf OrderDimRow.orderId df).2.2

/-- C5: For every raw input table, the time dimension has one row per
distinct parsed order date (no duplicate dates, every raw row's parsed date
present, no other dates present), and on every row the Day, Month, Quarter
and Year columns equal the calendar components of that row's Date when the
date is decomposed independently, with quarter = ((month - 1) / 3) + 1. -/
theorem time_dim_spec (parse : String → Date) (df : List Row) :
    ((time_dim parse df).map TimeDimRow.date).Nodup ∧
    (∀ r ∈ df, ∃ t ∈ time_dim parse df, t.date = parse r.orderDate) ∧
    (∀ t ∈ time_dim parse df, ∃ r ∈ df, t.date = parse r.orderDate) ∧
    (∀ t ∈ time_dim parse df, t.day = t.date.day ∧ t.month = t.date.month ∧
      t.quarter = quarterOfDate t.date ∧ t.year = t.date.year) := by
  have hdate : (time_dim parse df).map TimeDimRow.date =
      dropDupBy id [] (df.map (fun r => parse r.orderDate)) := by
    rw [time_dim, List.map_map]
    exact List.map_id' _
  refine ⟨?_, ?_, ?_, ?_⟩
  · rw [hdate]
    simpa using nodup_map_key_dropDupBy (id : Date → Date) []
      (df.map (fun r => parse r.orderDate))
  · intro r hr
    have h1 : parse r.orderDate ∈ (df.map (fun r => parse r.orderDate)).map id :=
      by simpa using List.mem_map_of_mem (fun r => parse r.orderDate) hr
    have h2 := (mem_map_key_dropDupBy (id : Date → Date) []
      (df.map (fun r => parse r.orderDate)) (parse r.orderDate)).mpr
      ⟨h1, List.not_mem_nil _⟩
    simp only [List.map_id] at h2
    exact ⟨_, List.mem_map_of_mem _ h2, rfl⟩
  · intro t ht
    obtain ⟨d, hd, he⟩ := List.mem_map.mp ht
    have h1 := mem_of_mem_dropDupBy id [] (df.map (fun r => parse r.orderDate)) d hd
    obtain ⟨r, hr, h2⟩ := List.mem_map.mp h1
    exact ⟨r, hr, by rw [← he, ← h2]⟩
  · intro t ht
    obtain ⟨d, hd, he⟩ := List.mem_map.mp ht
    subst he
    exact ⟨rfl, rfl, rfl, rfl⟩

theorem firstMissing_of_missing (cols : List String) :
    ∀ (req : List String) (c : String), c ∈ req → c ∉ cols →
      ∃ d, firstMissing cols req = some d ∧ d ∉ cols := by
  intro req
  induction req with
  | nil => intro c hc _; cases hc
  | cons a as ih =>
    intro c hc hcc
    by_cases ha : a ∈ cols
    · have hstep : firstMissing cols (a :: as) = firstMissing cols as := by
        simp [firstMissing, ha]
      rcases List.mem_cons.mp hc with h | h
      · exact absurd (h ▸ ha) hcc
      · obtain ⟨d, hd, hdc⟩ := ih c h hcc
        exact ⟨d, hstep.trans hd, hdc⟩
    · exact ⟨a, by simp [firstMissing, ha], ha⟩

/-- C6: For every raw input table that lacks a required column (for example
`Discount`), the pipeline fails at the transform stage: the stage raises a
`KeyError` instead of completing, so no fact table missing that column is
produced, and no destination write for sales_fact (or any table) is
attempted for that run. -/
theorem missing_column_aborts_transform (w : World) (ev : Event)
    (text : String) (cols : List String) (c : String)
    (hdl : w.downloadResult ev.bucket ev.name = Except.ok text)
    (hparse : w.parseResult text = Except.ok cols)
    (hreq : c ∈ requiredColumns) (hmiss : c ∉ cols) :
    (∃ e, transformSchema w cols = Except.error e) ∧
    (runInner w ev).1 = [] ∧ (∃ e, (runInner w ev).2 = Except.error e) := by
  obtain ⟨d, hd, _⟩ := firstMissing_of_missing cols requiredColumns c hreq hmiss
  have htrans : transformSchema w cols = Except.error (String.append "KeyError: " d) := by
    simp [transformSchema, hd]
  have hrun : runInner w ev = ([], Except.error (String.append "KeyError: " d)) := by
    simp [runInner, hdl, hparse, htrans]
  refine ⟨⟨_, htrans⟩, ?_, ?_⟩
  · rw [hrun]
  · exact ⟨String.append "KeyError: " d, by rw [hrun]⟩

/-- C7: For every input event and every external-outcome world — hence for
every error raised at any stage of the body (retrieval, decode, transform,
write) — `etl_pipeline` catches the error at its single catch-all boundary,
logs `An error occurred during the ETL process: {e}`, and returns normally:
the propagated-exception slot is always empty, so the caller cannot
distinguish a failed run from a successful one by the return. -/
theorem catch_all_returns_normally (w : World) (ev : Event) :
    (etl_pipeline w ev).raised = none ∧
    ((runInner w ev).2 = Except.ok () → (etl_pipeline w ev).loggedError = none) ∧
    (∀ e, (runInner w ev).2 = Except.error e →
      (etl_pipeline w ev).loggedError =
        some (String.append "An error occurred during the ETL process: " e)) := by
  rcases hr : runInner w ev with ⟨log, res⟩
  cases res with
  | ok u =>
    cases u
    refine ⟨by simp [etl_pipeline, hr], fun _ => by simp [etl_pipeline, hr], ?_⟩
    intro e he
    simp at he
  | error e0 =>
    refine ⟨by simp [etl_pipeline, hr], ?_, ?_⟩
    · intro hok
      simp at hok
    · intro e he
      simp at he
      subst he
      simp [etl_pipeline, hr]

/-- C8: On a run where download, decode and transform succeed and every
load job completes, the Sink Writer writes exactly the five tables
customer_dim, product_dim, order_dim, time_dim, sales_fact, in that order,
each to the destination `{namespace}.{table_name}` under the fixed
namespace `data-mining-assignment-442318.etl_output`, with
overwrite-or-create semantics (modelled from the spec's boundary contract)
and a synchronous wait for each job before the next starts. -/
theorem sink_writes_five_tables (w : World) (ev : Event)
    (text : String) (cols : List String)
    (hdl : w.downloadResult ev.bucket ev.name = Except.ok text)
    (hparse : w.parseResult text = Except.ok cols)
    (htrans : transformSchema w cols = Except.ok ())
    (hw : ∀ n ∈ tableNames, w.writeOk (tableIdOf n) = true) :
    (runInner w ev).1 = [
      { tableName := "customer_dim",
        tableId := "data-mining-assignment-442318.etl_output.customer_dim",
        mode := WriteMode.overwriteOrCreate, waitedForCompletion := true },
      { tableName := "product_dim",
        tableId := "data-mining-assignment-442318.etl_output.product_dim",
        mode := WriteMode.overwriteOrCreate, waitedForCompletion := true },
      { tableName := "order_dim",
        tableId := "data-mining-assignment-442318.etl_output.order_dim",
        mode := WriteMode.overwriteOrCreate, waitedForCompletion := true },
      { tableName := "time_dim",
        tableId := "data-mining-assignment-442318.etl_output.time_dim",
        mode := WriteMode.overwriteOrCreate, waitedForCompletion := true },
      { tableName := "sales_fact",
        tableId := "data-mining-assignment-442318.etl_output.sales_fact",
        mode := WriteMode.overwriteOrCreate, waitedForCompletion := true }] ∧
    (runInner w ev).2 = Except.ok () := by
  have h1 := hw "customer_dim" (by simp [tableNames])
  have h2 := hw "product_dim" (by simp [tableNames])
  have h3 := hw "order_dim" (by simp [tableNames])
  have h4 := hw "time_dim" (by simp [tableNames])
  have h5 := hw "sales_fact" (by simp [tableNames])
  have hrun : runInner w ev = writeLoop w tableNames := by
    simp [runInner, hdl, hparse, htrans]
  rw [hrun, tableNames]
  simp only [writeLoop, h1, h2, h3, h4, h5, if_true]
  constructor
  · decide
  · trivial

theorem headI_mem_of_ne_nil {α : Type} [Inhabited α] :
    ∀ (l : List α), l ≠ [] → l.headI ∈ l
  | [], h => absurd rfl h
  | a :: l, _ => List.mem_cons_self a l

/-- Witness for `customer_sum_sales_correct` at a concrete input: the first
fact row of the sample table carries customer C1, whose raw sales sum to
3 + 5 = 8. -/
theorem customer_sum_sales_correct_witness :
    (sampleFact1 ∈ sales_fact sampleParse sampleDf ∧
      sampleFact1.customerId = some "C1") ∧
    sampleFact1.custSumSales =
      some (((sampleDf.filter
        (fun r => decide (r.customerId = some "C1"))).map Row.sales).sum) :=
  ⟨⟨headI_mem_of_ne_nil _ (by decide), by decide⟩,
    customer_sum_sales_correct sampleParse sampleDf "C1" sampleFact1
      (headI_mem_of_ne_nil _ (by decide)) (by decide)⟩

/-- Witness for `dimension_tables_dedup` at a concrete input. -/
theorem dimension_tables_dedup_witness :
    sampleRow1 ∈ sampleDf ∧
    ∃ d ∈ customer_dim sampleDf, d.customerId = sampleRow1.customerId :=
  ⟨by decide, (dimension_tables_dedup sampleDf).1.2.1 sampleRow1 (by decide)⟩

/-- Witness for `time_dim_spec` at a concrete input: the 2024-03-15 row has
day 15, month 3, quarter 1, year 2024. -/
theorem time_dim_spec_witness :
    sampleTime1 ∈ time_dim sampleParse sampleDf ∧
    (sampleTime1.day = sampleTime1.date.day ∧
      sampleTime1.month = sampleTime1.date.month ∧
      sampleTime1.quarter = quarterOfDate sampleTime1.date ∧
      sampleTime1.year = sampleTime1.date.year) :=
  ⟨by decide, (time_dim_spec sampleParse sampleDf).2.2.2 sampleTime1 (by decide)⟩

/-- Witness for `missing_column_aborts_transform`: a run whose decoded CSV
lacks the `Discount` column. -/
theorem missing_column_aborts_transform_witness :
    (∃ e, transformSchema sampleWorldMissing sampleColsMissing = Except.error e) ∧
    (runInner sampleWorldMissing sampleEvent).1 = [] ∧
    (∃ e, (runInner sampleWorldMissing sampleEvent).2 = Except.error e) :=
  missing_column_aborts_transform sampleWorldMissing sampleEvent "csv-bytes"
    sampleColsMissing "Discount" rfl rfl (by decide) (by decide)

/-- Witness for `catch_all_returns_normally`: a run whose download raises is
caught, logged with the line 113 prefix, and returns normally. -/
theorem catch_all_returns_normally_witness :
    (etl_pipeline sampleWorldFail sampleEvent).raised = none ∧
    (etl_pipeline sampleWorldFail sampleEvent).loggedError =
      some "An error occurred during the ETL process: object not found" :=
  ⟨(catch_all_returns_normally sampleWorldFail sampleEvent).1,
    (catch_all_returns_normally sampleWorldFail sampleEvent).2.2
      "object not found" rfl⟩

/-- Witness for `sink_writes_five_tables`: the all-success world attempts
exactly the five destination writes in dict order. -/
theorem sink_writes_five_tables_witness :
    (runInner sampleWorldOk sampleEvent).1 = [
      { tableName := "customer_dim",
        tableId := "data-mining-assignment-442318.etl_output.customer_dim",
        mode := WriteMode.overwriteOrCreate, waitedForCompletion := true },
      { tableName := "product_dim",
        tableId := "data-mining-assignment-442318.etl_output.product_dim",
        mode := WriteMode.overwriteOrCreate, waitedForCompletion := true },
      { tableName := "order_dim",
        tableId := "data-mining-assignment-442318.etl_output.order_dim",
        mode := WriteMode.overwriteOrCreate, waitedForCompletion := true },
      { tableName := "time_dim",
        tableId := "data-mining-assignment-442318.etl_output.time_dim",
        mode := WriteMode.overwriteOrCreate, waitedForCompletion := true },
      { tableName := "sales_fact",
        tableId := "data-mining-assignment-442318.etl_output.sales_fact",
        mode := WriteMode.overwriteOrCreate, waitedForCompletion := true }] ∧
    (runInner sampleWorldOk sampleEvent).2 = Except.ok () :=
  sink_writes_five_tables sampleWorldOk sampleEvent "csv-bytes" requiredColumns
    rfl rfl rfl (fun _ _ => rfl)

/-- Witness for `transform_deterministic` at a concrete input. -/
theorem transform_deterministic_witness :
    allTables sampleParse sampleDf = allTables sampleParse sampleDf :=
  transform_deterministic sampleParse sampleDf sampleDf rfl

/-- Witness for `aggregate_columns_nonnull` at a concrete input. -/
theorem aggregate_columns_nonnull_witness :
    sampleFact1 ∈ sales_fact sampleParse sampleDf ∧
    (sampleFact1.custSumSales.isSome ∧ sampleFact1.custMaxQty.isSome) :=
  ⟨headI_mem_of_ne_nil _ (by decide),
    (aggregate_columns_nonnull sampleParse sampleDf sampleFact1
      (headI_mem_of_ne_nil _ (by decide))).1 "C1" (by decide)⟩
